import Mathlib

/-!
Verification of the Bagula Platform ingestion API boundary
(`platform/app/main.py`) against its specification.

The Python file is a FastAPI controller layer.  We embed it shallowly:

* the pydantic models (`Turn`, `SessionMetrics`, `AgentSession`,
  `IngestRequest`, `IngestResponse`) become Lean structures.  Python
  `dict` payloads are opaque at this boundary (the code never inspects
  them), so they are carried as association lists; Python `float`
  fields are carried as `Rat` (the boundary does no arithmetic on them,
  they are pass-through payload);
* the collaborators (`SessionStore`, `QueueManager`) are not part of
  the source excerpt; the handler only calls them, so they are embedded
  as behaviour parameters (`StoreModel`): each call either succeeds or
  raises, and a raised Python exception is carried as its `str(e)`;
* the handler `ingest_sessions` is embedded as `runIngest`, which
  returns the HTTP result together with the trace of collaborator
  calls it issued and the resulting store/queue state, so that claims
  about "how many calls, in what order" are statements about the trace;
* `asyncio` cooperative scheduling: inside one request the handler is
  straight-line code (it `await`s each call to completion before the
  next), so a single request is faithfully a sequential function.
-/

set_option autoImplicit false

namespace Bagula

/-- Opaque structured payload: a Python `dict` that the boundary layer
never inspects, carried as an association list of string keys/values. -/
abbrev PyDict := List (String × String)

/-- Embeds the pydantic model `Turn` (main.py lines 41-51).
Python `int` is unbounded, so `Int`. -/
structure Turn where
  turn_id : String
  turn_number : Int
  timestamp : Int
  trigger : PyDict
  agent_response : Option PyDict
  llm_calls : List PyDict
  user_feedback : Option PyDict
deriving DecidableEq

/-- Embeds the pydantic model `SessionMetrics` (main.py lines 54-67).
The three `float` fields are carried as `Rat`: the controller never
computes with them, they are opaque payload. -/
structure SessionMetrics where
  total_turns : Int
  total_llm_calls : Int
  total_tool_calls : Int
  total_tokens : Int
  total_cost : Rat
  total_latency : Int
  average_latency_per_turn : Rat
  average_cost_per_turn : Rat
  time_to_first_response : Option Int
  time_to_resolution : Option Int
deriving DecidableEq

/-- Embeds the pydantic model `AgentSession` (main.py lines 70-84). -/
structure AgentSession where
  session_id : String
  agent_name : String
  user_id : Option String
  start_time : Int
  end_time : Option Int
  initial_request : String
  final_outcome : Option PyDict
  turns : List Turn
  metrics : SessionMetrics
  metadata : Option PyDict
  tags : Option (List String)
deriving DecidableEq

/-- Embeds `IngestRequest` (main.py lines 87-89).  Note: the `sessions`
field is a plain `List[AgentSession]` with no minimum-length
constraint in the source. -/
structure IngestRequest where
  sessions : List AgentSession
  timestamp : Int
deriving DecidableEq

/-- Embeds `IngestResponse` (main.py lines 92-95). -/
structure IngestResponse where
  success : Bool
  sessions_received : Nat
  message : String
deriving DecidableEq

/-- Outcome of the auth dependency: either the extracted api key, or an
`HTTPException` with a status code and detail string. -/
inductive AuthOutcome where
  | ok (api_key : String)
  | httpError (status : Nat) (detail : String)
deriving DecidableEq

/-- Python `str.startswith(p)`: a Python string is a sequence of code
points, so this is a prefix test on the code-point list. -/
def pyStartswith (s p : String) : Bool :=
  s.data.take p.data.length == p.data

/-- Python `s[n:]`: drop the first `n` code points. -/
def pySlice (s : String) (n : Nat) : String :=
  String.mk (s.data.drop n)

/-- Python `len(s)`: the number of code points. -/
def pyLen (s : String) : Nat := s.data.length

/-- Embeds `verify_api_key` (main.py lines 102-114), which receives the
`Authorization` header value.  `authorization[7:]` is `pySlice _ 7`;
Python `not api_key` on a string tests emptiness. -/
def verify_api_key (authorization : String) : AuthOutcome :=
  if pyStartswith authorization ("Bearer ") = false then
    AuthOutcome.httpError 401 "Invalid authorization header"
  else
    let api_key := pySlice authorization 7
    if api_key = "" ∨ pyLen api_key < 10 then
      AuthOutcome.httpError 401 "Invalid API key"
    else
      AuthOutcome.ok api_key

/-- Resolution of the auth dependency for one request, including the
framework step: `verify_api_key` declares `authorization` as a required
`Header(...)` parameter, and FastAPI rejects a request that lacks a
required header parameter with a 422 validation error before the
dependency body ever runs.  Only a present header reaches
`verify_api_key`. -/
def resolveAuth (authorization : Option String) : AuthOutcome :=
  match authorization with
  | none => AuthOutcome.httpError 422 "field required"
  | some a => verify_api_key a

/-- One collaborator call issued by the ingest handler: the single
`session_store.store_sessions(sessions, api_key)` call, or one
`queue_manager.enqueue_session_analysis(session_id)` call. -/
inductive Event where
  | storeCall (sessions : List AgentSession) (api_key : String)
  | enqueueCall (session_id : String)
deriving DecidableEq

/-- Whether an event is the store-persist call. -/
def Event.isStoreCall : Event → Bool
  | Event.storeCall _ _ => true
  | Event.enqueueCall _ => false

/-- Whether an event is an enqueue call. -/
def Event.isEnqueueCall : Event → Bool
  | Event.storeCall _ _ => false
  | Event.enqueueCall _ => true

/-- Behaviour of the external collaborators for one request: each call
either returns (`Except.ok`) or raises a Python exception carried as
its `str(e)` (`Except.error`). -/
structure StoreModel where
  storeResult : List AgentSession → String → Except String Unit
  enqueueResult : String → Except String Unit

/-- Observable state of the collaborators: which sessions the store has
persisted and which session ids the queue holds.  A successful
`store_sessions` appends the batch; a successful enqueue appends one
id; a raised exception leaves the respective state unchanged. -/
structure StoreState where
  stored : List AgentSession
  queued : List String
deriving DecidableEq

/-- Result of an ingest request: the response body on success, or an
`HTTPException`. -/
inductive HandlerResult where
  | ok (response : IngestResponse)
  | httpError (status : Nat) (detail : String)
deriving DecidableEq

/-- Embeds the `for session in sessions: await queue_manager.
enqueue_session_analysis(session.session_id)` loop (main.py lines
152-153): calls are issued in list order; the first raised exception
aborts the loop.  Returns the loop outcome, the enqueue calls issued
(the failing call included: it was issued), and the queue contents. -/
def enqueueLoop (enq : String → Except String Unit) (queued : List String) :
    List AgentSession → Except String Unit × List Event × List String
  | [] => (Except.ok (), [], queued)
  | s :: rest =>
    match enq s.session_id with
    | Except.error e => (Except.error e, [Event.enqueueCall s.session_id], queued)
    | Except.ok _ =>
      let r := enqueueLoop enq (queued ++ [s.session_id]) rest
      (r.1, Event.enqueueCall s.session_id :: r.2.1, r.2.2)

/-- Embeds the body of `ingest_sessions` (main.py lines 132-162), after
the auth dependency has supplied `api_key`: one `store_sessions` call
with the whole batch, then one enqueue per session in order, then the
success response; the `except Exception` clause turns any raised
exception into an `HTTPException(500, str(e))`.  Returns the HTTP
result, the trace of collaborator calls issued, and the final
collaborator state. -/
def runIngest (m : StoreModel) (st : StoreState) (request : IngestRequest)
    (api_key : String) : HandlerResult × List Event × StoreState :=
  let sessions := request.sessions
  match m.storeResult sessions api_key with
  | Except.error e =>
      (HandlerResult.httpError 500 e, [Event.storeCall sessions api_key], st)
  | Except.ok _ =>
    let stored1 := st.stored ++ sessions
    let r := enqueueLoop m.enqueueResult st.queued sessions
    let events := Event.storeCall sessions api_key :: r.2.1
    let st2 : StoreState := { stored := stored1, queued := r.2.2 }
    match r.1 with
    | Except.error e => (HandlerResult.httpError 500 e, events, st2)
    | Except.ok _ =>
      let n := sessions.length
      (HandlerResult.ok
        { success := true
          sessions_received := n
          message := "Successfully received " ++ toString n ++ " session(s)" },
       events, st2)

/-- Result of `GET /v1/sessions/{session_id}`: the stored session, or
an `HTTPException`. -/
inductive GetSessionResult where
  | ok (session : AgentSession)
  | httpError (status : Nat) (detail : String)
deriving DecidableEq

/-- Embeds `get_session` (main.py lines 165-176), with the store's
`get_session` lookup (returns `Session | None`) as a parameter.
`if not session` on a pydantic session object tests `None`-ness
(session objects are truthy), i.e. `Option.isNone` here. -/
def get_session (lookup : String → Option AgentSession)
    (session_id : String) : GetSessionResult :=
  match lookup session_id with
  | none => GetSessionResult.httpError 404 "Session not found"
  | some session => GetSessionResult.ok session

/-- Response body of `GET /v1/agents/{agent_name}/sessions`
(main.py lines 193-199). -/
structure ListSessionsResponse where
  agent_name : String
  sessions : List AgentSession
  count : Nat
  limit : Int
  offset : Int
deriving DecidableEq

/-- Embeds `list_agent_sessions` (main.py lines 179-199): query
parameters `limit` / `offset` default to 100 / 0 when omitted
(modelled by `Option` arguments), are forwarded to the store's
`list_sessions` unchanged and unbounded, and are echoed in the
response together with the store's list and its length. -/
def list_agent_sessions (list_sessions : String → Int → Int → List AgentSession)
    (agent_name : String) (limit : Option Int) (offset : Option Int) :
    ListSessionsResponse :=
  let l := limit.getD 100
  let o := offset.getD 0
  let sessions := list_sessions agent_name l o
  { agent_name := agent_name
    sessions := sessions
    count := sessions.length
    limit := l
    offset := o }

/-- Lifecycle actions of the process, as issued by the startup and
shutdown hooks and by request handling. -/
inductive LifecycleEvent where
  | spawnWorkersTask
  | handleRequest (n : Nat)
  | stopWorkers
  | closeStore
deriving DecidableEq

/-- Embeds `startup_event` (main.py lines 250-258):
`asyncio.create_task(queue_manager.start_workers())` launches the
worker loop as a background task. -/
def startup_event : List LifecycleEvent := [LifecycleEvent.spawnWorkersTask]

/-- Embeds `shutdown_event` (main.py lines 261-269): first
`await queue_manager.stop_workers()`, then
`await session_store.close()`. -/
def shutdown_event : List LifecycleEvent :=
  [LifecycleEvent.stopWorkers, LifecycleEvent.closeStore]

/-- The lifecycle trace of one process run.  ASGI semantics: the
framework runs the startup handlers to completion before the server
accepts any request, and runs the shutdown handlers after the request
phase ends. -/
def processTrace (requests : List LifecycleEvent) : List LifecycleEvent :=
  startup_event ++ (requests ++ shutdown_event)

/-!  Concrete fixtures used by witnesses and counterexamples. -/

/-- A metrics record with all-zero payload (values are opaque to the
boundary). -/
def sampleMetrics : SessionMetrics :=
  { total_turns := 0
    total_llm_calls := 0
    total_tool_calls := 0
    total_tokens := 0
    total_cost := 0
    total_latency := 0
    average_latency_per_turn := 0
    average_cost_per_turn := 0
    time_to_first_response := none
    time_to_resolution := none }

/-- A minimal well-formed session record. -/
def sampleSession (sid : String) (agent : String) : AgentSession :=
  { session_id := sid
    agent_name := agent
    user_id := none
    start_time := 0
    end_time := none
    initial_request := "hello"
    final_outcome := none
    turns := []
    metrics := sampleMetrics
    metadata := none
    tags := none }

/-- Collaborators in which every call succeeds. -/
def okModel : StoreModel :=
  { storeResult := fun _ _ => Except.ok ()
    enqueueResult := fun _ => Except.ok () }

/-- Collaborators in which the store raises on every call. -/
def failStoreModel : StoreModel :=
  { storeResult := fun _ _ => Except.error ("db down")
    enqueueResult := fun _ => Except.ok () }

/-- Collaborators in which the store succeeds and every enqueue
raises. -/
def failEnqueueModel : StoreModel :=
  { storeResult := fun _ _ => Except.ok ()
    enqueueResult := fun _ => Except.error ("queue down") }

/-- Collaborators in which the store succeeds and only the enqueue of
session id `s2` raises. -/
def failSecondModel : StoreModel :=
  { storeResult := fun _ _ => Except.ok ()
    enqueueResult := fun sid =>
      if sid = "s2" then Except.error ("enq fail") else Except.ok () }

/-- Empty collaborator state. -/
def emptyState : StoreState := { stored := [], queued := [] }

/-- A batch of two sessions. -/
def twoSessionRequest : IngestRequest :=
  { sessions := [sampleSession ("s1") ("agentA"), sampleSession ("s2") ("agentA")]
    timestamp := 0 }

/-- A store lookup that knows exactly the session `s1`. -/
def sampleLookup : String → Option AgentSession :=
  fun sid => if sid = "s1" then some (sampleSession ("s1") ("agentA")) else none

/-!  Behaviour of the enqueue loop. -/

/-- When every enqueue succeeds, the loop issues one enqueue call per
session in list order and appends the ids to the queue. -/
theorem enqueueLoop_ok (enq : String → Except String Unit) (q : List String)
    (sessions : List AgentSession)
    (h : ∀ s ∈ sessions, enq s.session_id = Except.ok ()) :
    enqueueLoop enq q sessions =
      (Except.ok (), sessions.map (fun s => Event.enqueueCall s.session_id),
       q ++ sessions.map (fun s => s.session_id)) := by
  induction sessions generalizing q with
  | nil => simp [enqueueLoop]
  | cons a as ih =>
    have ha := h a (List.mem_cons_self a as)
    simp only [enqueueLoop, ha]
    rw [ih (q ++ [a.session_id]) (fun s hs => h s (List.mem_cons_of_mem a hs))]
    simp

/-- When the enqueues of `pre` succeed and the enqueue of `sk` raises,
the loop fails after issuing exactly the calls for `pre` and the one
failing call for `sk`; only the ids of `pre` enter the queue, nothing
of `post` is reached. -/
theorem enqueueLoop_fail (enq : String → Except String Unit) (q : List String)
    (pre post : List AgentSession) (sk : AgentSession) (e : String)
    (hpre : ∀ s ∈ pre, enq s.session_id = Except.ok ())
    (hk : enq sk.session_id = Except.error e) :
    enqueueLoop enq q (pre ++ sk :: post) =
      (Except.error e,
       pre.map (fun s => Event.enqueueCall s.session_id) ++
         [Event.enqueueCall sk.session_id],
       q ++ pre.map (fun s => s.session_id)) := by
  induction pre generalizing q with
  | nil => simp [enqueueLoop, hk]
  | cons a as ih =>
    have ha := hpre a (List.mem_cons_self a as)
    simp only [List.cons_append, enqueueLoop, ha, List.append_eq]
    rw [ih (q ++ [a.session_id]) (fun s hs => hpre s (List.mem_cons_of_mem a hs))]
    simp

/-!  Claim theorems. -/

/-- C2 counterexample: a request to /v1/sessions/ingest that carries
no Authorization header is rejected by the framework's validation of
the required `Header(...)` parameter with status 422 — not 401 as the
claim states. -/
theorem missing_auth_header_not_401 :
    resolveAuth none = AuthOutcome.httpError 422 ("field required") ∧
    (422 : Nat) ≠ 401 :=
  ⟨rfl, by decide⟩

/-- C2 amended: for every request to /v1/sessions/ingest that carries
no Authorization header, the required header parameter fails request
validation and the response status is 422; `verify_api_key` never
runs. -/
theorem missing_auth_header_422 :
    resolveAuth none = AuthOutcome.httpError 422 ("field required") := rfl

/-- C3: the auth check rejects with status 401 exactly when the
Authorization value does not start with "Bearer " or the token after
the prefix has length below 10; any value with a token of length at
least 10 is accepted regardless of content, the extracted key being
the raw suffix, with no lookup of any registry (the outcome is a
function of the header value alone). -/
theorem verify_api_key_spec (authorization : String) :
    ((pyStartswith authorization ("Bearer ") = true ∧
        10 ≤ pyLen (pySlice authorization 7)) →
      verify_api_key authorization = AuthOutcome.ok (pySlice authorization 7)) ∧
    ((pyStartswith authorization ("Bearer ") = false ∨
        pyLen (pySlice authorization 7) < 10) ↔
      ∃ d, verify_api_key authorization = AuthOutcome.httpError 401 d) := by
  by_cases hb : pyStartswith authorization ("Bearer ") = true
  · by_cases hl : pyLen (pySlice authorization 7) < 10
    · refine ⟨fun h => absurd hl (by omega), ?_⟩
      constructor
      · intro _
        exact ⟨"Invalid API key", by simp [verify_api_key, hb, Or.inr hl]⟩
      · intro _
        exact Or.inr hl
    · have hne : ¬ (pySlice authorization 7 = "" ∨
          pyLen (pySlice authorization 7) < 10) := by
        rintro (h | h)
        · apply hl
          rw [h]
          decide
        · exact hl h
      refine ⟨fun _ => by simp [verify_api_key, hb, hne], ?_⟩
      constructor
      · rintro (h | h)
        · rw [hb] at h
          cases h
        · exact absurd h hl
      · rintro ⟨d, hd⟩
        simp [verify_api_key, hb, hne] at hd
  · have hb2 : pyStartswith authorization ("Bearer ") = false := by
      cases h : pyStartswith authorization ("Bearer ")
      · rfl
      · exact absurd h hb
    refine ⟨fun h => absurd h.1 hb, ?_⟩
    exact ⟨fun _ => ⟨"Invalid authorization header", by simp [verify_api_key, hb2]⟩,
           fun _ => Or.inl hb2⟩

/-- C3 witness: a 10-character token is accepted with the token
returned as the api key; a 5-character token is rejected with 401. -/
theorem verify_api_key_spec_witness :
    verify_api_key ("Bearer abcdefghij") = AuthOutcome.ok ("abcdefghij") ∧
    ∃ d, verify_api_key ("Bearer short") = AuthOutcome.httpError 401 d :=
  ⟨(verify_api_key_spec ("Bearer abcdefghij")).1 (by decide),
   (verify_api_key_spec ("Bearer short")).2.mp (by decide)⟩

/-- C6: GET /v1/sessions/{session_id} responds 404 exactly when the
store's `get_session` returns None, and otherwise returns the stored
session unchanged. -/
theorem get_session_spec (lookup : String → Option AgentSession)
    (session_id : String) :
    (get_session lookup session_id =
        GetSessionResult.httpError 404 ("Session not found") ↔
      lookup session_id = none) ∧
    (∀ s, lookup session_id = some s →
      get_session lookup session_id = GetSessionResult.ok s) := by
  unfold get_session
  cases h : lookup session_id with
  | none => simp
  | some s => simp

/-- C6 witness: the known id is returned unchanged; an unknown id is a
404. -/
theorem get_session_spec_witness :
    get_session sampleLookup ("s1") =
      GetSessionResult.ok (sampleSession ("s1") ("agentA")) ∧
    get_session sampleLookup ("zzz") =
      GetSessionResult.httpError 404 ("Session not found") :=
  ⟨(get_session_spec sampleLookup ("s1")).2 (sampleSession ("s1") ("agentA")) rfl,
   (get_session_spec sampleLookup ("zzz")).1.mpr rfl⟩

/-- C8: GET /v1/agents/{agent_name}/sessions forwards the supplied
limit and offset to the store unchanged and unbounded, defaults them
to 100 and 0 when omitted, and responds with the agent name, the
store's list, its length as count, and the effective limit and
offset. -/
theorem list_agent_sessions_spec (ls : String → Int → Int → List AgentSession)
    (agent : String) (limit offset : Int) :
    (list_agent_sessions ls agent (some limit) (some offset) =
      { agent_name := agent
        sessions := ls agent limit offset
        count := (ls agent limit offset).length
        limit := limit
        offset := offset }) ∧
    (list_agent_sessions ls agent none none =
      { agent_name := agent
        sessions := ls agent 100 0
        count := (ls agent 100 0).length
        limit := 100
        offset := 0 }) :=
  ⟨rfl, rfl⟩

/-- C9: in the lifecycle trace, the worker loop is spawned by the
startup hook before any request is handled, and the shutdown hook
stops the workers strictly before closing the store. -/
theorem lifecycle_ordering (requests : List LifecycleEvent) :
    processTrace requests =
      LifecycleEvent.spawnWorkersTask ::
        (requests ++ [LifecycleEvent.stopWorkers, LifecycleEvent.closeStore]) ∧
    shutdown_event.indexOf LifecycleEvent.stopWorkers <
      shutdown_event.indexOf LifecycleEvent.closeStore :=
  ⟨rfl, by decide⟩

/-- C1 counterexample: for a concrete well-formed batch of 2 sessions
with all collaborator calls succeeding, the handler issues exactly one
store-persist call (a single `store_sessions` call carrying the whole
batch), not two as the claim states. -/
theorem ingest_two_sessions_one_store_call :
    ((runIngest okModel emptyState twoSessionRequest ("k1234567890")).2.1.countP
        Event.isStoreCall = 1) ∧
    ¬ ((runIngest okModel emptyState twoSessionRequest ("k1234567890")).2.1.countP
        Event.isStoreCall = 2) := by
  constructor
  · decide
  · decide

/-- C1 amended: an authenticated well-formed batch of 2 sessions on
which the store and both enqueues succeed returns success = true and
sessions_received = 2; the handler makes exactly one store-persist
call, carrying both sessions, and exactly 2 enqueue calls (one per
session_id) in the order the sessions appear in the batch, the store
call completing before the first enqueue call (it is the first event
of the trace). -/
theorem ingest_two_sessions_spec (m : StoreModel) (st : StoreState)
    (s1 s2 : AgentSession) (t : Int) (key : String)
    (hs : m.storeResult [s1, s2] key = Except.ok ())
    (h1 : m.enqueueResult s1.session_id = Except.ok ())
    (h2 : m.enqueueResult s2.session_id = Except.ok ()) :
    runIngest m st { sessions := [s1, s2], timestamp := t } key =
      (HandlerResult.ok
        { success := true
          sessions_received := 2
          message := "Successfully received 2 session(s)" },
       [Event.storeCall [s1, s2] key,
        Event.enqueueCall s1.session_id, Event.enqueueCall s2.session_id],
       { stored := st.stored ++ [s1, s2]
         queued := st.queued ++ [s1.session_id, s2.session_id] }) := by
  have hall : ∀ s ∈ [s1, s2], m.enqueueResult s.session_id = Except.ok () := by
    intro s hs2
    rcases List.mem_pair.mp hs2 with h | h
    · rw [h]; exact h1
    · rw [h]; exact h2
  simp only [runIngest, hs]
  rw [enqueueLoop_ok m.enqueueResult st.queued [s1, s2] hall]
  simp
  rfl

/-- C1 witness: the amended statement at the concrete 2-session
batch. -/
theorem ingest_two_sessions_spec_witness :
    runIngest okModel emptyState twoSessionRequest ("k1234567890") =
      (HandlerResult.ok
        { success := true
          sessions_received := 2
          message := "Successfully received 2 session(s)" },
       [Event.storeCall [sampleSession ("s1") ("agentA"),
          sampleSession ("s2") ("agentA")] ("k1234567890"),
        Event.enqueueCall ("s1"), Event.enqueueCall ("s2")],
       { stored := [sampleSession ("s1") ("agentA"), sampleSession ("s2") ("agentA")]
         queued := ["s1", "s2"] }) :=
  ingest_two_sessions_spec okModel emptyState (sampleSession ("s1") ("agentA"))
    (sampleSession ("s2") ("agentA")) 0 ("k1234567890") rfl rfl rfl

/-- C4: for an authenticated ingest request, any exception raised by
the store, or by the queue during the enqueue loop, yields a response
of status 500 whose detail is the exception's string
representation. -/
theorem ingest_error_propagation (m : StoreModel) (st : StoreState)
    (req : IngestRequest) (key : String) (e : String) :
    (m.storeResult req.sessions key = Except.error e →
      (runIngest m st req key).1 = HandlerResult.httpError 500 e) ∧
    (m.storeResult req.sessions key = Except.ok () →
      (enqueueLoop m.enqueueResult st.queued req.sessions).1 = Except.error e →
      (runIngest m st req key).1 = HandlerResult.httpError 500 e) := by
  constructor
  · intro h
    simp [runIngest, h]
  · intro h1 h2
    simp [runIngest, h1, h2]

/-- C4 witness: a store exception and a queue exception each surface
as 500 with the exception text. -/
theorem ingest_error_propagation_witness :
    (runIngest failStoreModel emptyState twoSessionRequest ("k1234567890")).1 =
      HandlerResult.httpError 500 ("db down") ∧
    (runIngest failEnqueueModel emptyState twoSessionRequest ("k1234567890")).1 =
      HandlerResult.httpError 500 ("queue down") :=
  ⟨(ingest_error_propagation failStoreModel emptyState twoSessionRequest
      ("k1234567890") ("db down")).1 rfl,
   (ingest_error_propagation failEnqueueModel emptyState twoSessionRequest
      ("k1234567890") ("queue down")).2 rfl rfl⟩

/-- C5: when the store call succeeds and the enqueue of the k-th
session raises, the request fails with 500, the whole batch stays
stored with no compensating rollback, the sessions before position k
stay enqueued, and no session at or after position k enters the queue;
the trace shows the enqueue calls for the sessions before k, then the
one failing call for the k-th, and none for any later session. -/
theorem ingest_partial_enqueue_failure (m : StoreModel) (st : StoreState)
    (pre post : List AgentSession) (sk : AgentSession) (t : Int)
    (key : String) (e : String)
    (hs : m.storeResult (pre ++ sk :: post) key = Except.ok ())
    (hpre : ∀ s ∈ pre, m.enqueueResult s.session_id = Except.ok ())
    (hk : m.enqueueResult sk.session_id = Except.error e) :
    runIngest m st { sessions := pre ++ sk :: post, timestamp := t } key =
      (HandlerResult.httpError 500 e,
       Event.storeCall (pre ++ sk :: post) key ::
         (pre.map (fun s => Event.enqueueCall s.session_id) ++
           [Event.enqueueCall sk.session_id]),
       { stored := st.stored ++ (pre ++ sk :: post)
         queued := st.queued ++ pre.map (fun s => s.session_id) }) := by
  simp only [runIngest, hs]
  rw [enqueueLoop_fail m.enqueueResult st.queued pre post sk e hpre hk]

/-- C5 witness: in a 3-session batch whose second enqueue raises, the
batch stays stored, only the first session is queued, the trace stops
at the failing second enqueue call, and the response is 500. -/
theorem ingest_partial_enqueue_failure_witness :
    runIngest failSecondModel emptyState
        { sessions := [sampleSession ("s1") ("agentA"), sampleSession ("s2") ("agentA"),
            sampleSession ("s3") ("agentA")], timestamp := 0 } ("k1234567890") =
      (HandlerResult.httpError 500 ("enq fail"),
       [Event.storeCall [sampleSession ("s1") ("agentA"), sampleSession ("s2") ("agentA"),
          sampleSession ("s3") ("agentA")] ("k1234567890"),
        Event.enqueueCall ("s1"), Event.enqueueCall ("s2")],
       { stored := [sampleSession ("s1") ("agentA"), sampleSession ("s2") ("agentA"),
          sampleSession ("s3") ("agentA")]
         queued := ["s1"] }) := by
  have h := ingest_partial_enqueue_failure failSecondModel emptyState
    [sampleSession ("s1") ("agentA")] [sampleSession ("s3") ("agentA")]
    (sampleSession ("s2") ("agentA")) 0 ("k1234567890") ("enq fail")
    rfl
    (by
      intro s hs
      rw [List.mem_singleton] at hs
      rw [hs]
      rfl)
    rfl
  exact h

/-- C7 counterexample: a request whose sessions list is empty is
accepted: it passes validation (the field is a plain list, with no
minimum length) and the handler returns success = true with
sessions_received = 0. -/
theorem ingest_empty_batch_accepted :
    (runIngest okModel emptyState { sessions := [], timestamp := 0 }
        ("k1234567890")).1 =
      HandlerResult.ok
        { success := true
          sessions_received := 0
          message := "Successfully received 0 session(s)" } := rfl

/-- C7 amended: the ingest endpoint accepts any batch whose sessions
field is a list of AgentSession, the empty list included: an empty
batch is accepted and yields success = true, sessions_received = 0,
one store call with the empty list, and no enqueue calls. -/
theorem ingest_empty_batch_spec (m : StoreModel) (st : StoreState)
    (t : Int) (key : String)
    (hs : m.storeResult [] key = Except.ok ()) :
    runIngest m st { sessions := [], timestamp := t } key =
      (HandlerResult.ok
        { success := true
          sessions_received := 0
          message := "Successfully received 0 session(s)" },
       [Event.storeCall [] key],
       { stored := st.stored, queued := st.queued }) := by
  simp [runIngest, enqueueLoop, hs]
  rfl

/-- C7 amended witness: the empty batch at concrete inputs. -/
theorem ingest_empty_batch_spec_witness :
    runIngest okModel emptyState { sessions := [], timestamp := 0 }
        ("k1234567890") =
      (HandlerResult.ok
        { success := true
          sessions_received := 0
          message := "Successfully received 0 session(s)" },
       [Event.storeCall [] ("k1234567890")],
       { stored := [], queued := [] }) :=
  ingest_empty_batch_spec okModel emptyState 0 ("k1234567890") rfl

/-- C10: if the store call raises, the handler issues no enqueue call
at all — the trace is the single store call — and the collaborator
state is left untouched; the request fails with 500. -/
theorem ingest_store_failure_no_enqueue (m : StoreModel) (st : StoreState)
    (req : IngestRequest) (key : String) (e : String)
    (hs : m.storeResult req.sessions key = Except.error e) :
    runIngest m st req key =
      (HandlerResult.httpError 500 e, [Event.storeCall req.sessions key], st) := by
  simp [runIngest, hs]

/-- C10 witness: a failing store at the concrete 2-session batch
leaves the state untouched with no enqueue call issued. -/
theorem ingest_store_failure_no_enqueue_witness :
    runIngest failStoreModel emptyState twoSessionRequest ("k1234567890") =
      (HandlerResult.httpError 500 ("db down"),
       [Event.storeCall [sampleSession ("s1") ("agentA"),
          sampleSession ("s2") ("agentA")] ("k1234567890")],
       emptyState) :=
  ingest_store_failure_no_enqueue failStoreModel emptyState twoSessionRequest
    ("k1234567890") ("db down") rfl

end Bagula
